import Mathlib

/-!
Formal model of `radio.py` from the rpi-radio-alarm repository: a radio
alarm service with a JSON config store (`PersistentConfig`), an external
player process controller (class `Radio`), an alarm scheduler
(`AlarmResource.check_time` / `is_within_alarm_time`) and thin HTTP
resources (`RadioResource`, `AlarmTimeResource`).

Python values and exceptions are embedded shallowly: JSON documents as an
inductive `Json`, exceptions as `Except PyErr`, `datetime.time` as a
record with CPython's lexicographic comparison, and the `subprocess`
handle held by class `Radio` as a three-valued `Handle`.
-/

namespace RpiRadioAlarm

/-- JSON values as produced by `json.load` / consumed by `json.dump`.
Objects are association lists in insertion order, as Python dicts are. -/
inductive Json where
  | null
  | bool (b : Bool)
  | num (n : Int)
  | str (s : String)
  | obj (fields : List (String × Json))

/-- The Python exceptions that the modelled code can raise. -/
inductive PyErr where
  | keyError (k : String)     -- subscripting a dict with a missing key
  | typeError                 -- subscripting a non-dict value
  | valueError                -- e.g. datetime.time with out-of-range fields
  | jsonDecodeError           -- json.load on unparseable content
deriving Repr, DecidableEq

/-- Subscripting `d[k]` on a JSON value: a dict lookup raising `KeyError` when the key
is absent, and `TypeError` when the value is not a dict. -/
def Json.subscript : Json → String → Except PyErr Json
  | .obj fields, k =>
      match fields.lookup k with
      | some v => .ok v
      | none => .error (.keyError k)
  | _, _ => .error .typeError

/-- Assignment into an association list: replaces the value at an existing
key in place (dicts keep insertion order), otherwise appends. -/
def assocSet (fields : List (String × Json)) (k : String) (v : Json) :
    List (String × Json) :=
  if fields.any (fun p => p.1 = k) then
    fields.map (fun p => if p.1 = k then (k, v) else p)
  else fields ++ [(k, v)]

/-- Assigning `d[k] = v` on a JSON value: raises `TypeError` when the value is not a
dict. -/
def Json.setKey : Json → String → Json → Except PyErr Json
  | .obj fields, k, v => .ok (.obj (assocSet fields k v))
  | _, _, _ => .error .typeError

/-- Descend along a list of keys, as the loop in `PersistentConfig.get`:
`for key_part in key_parts: ret_value = ret_value[key_part]`. -/
def getPath (j : Json) : List String → Except PyErr Json
  | [] => .ok j
  | k :: rest => do getPath (← j.subscript k) rest

/-- Functional counterpart of `PersistentConfig.set`'s in-place update:
descend to the parent of the final segment, then assign the final key. -/
def setPath (j : Json) (parts : List String) (v : Json) :
    Except PyErr Json :=
  match parts with
  | [] => .error .typeError  -- unreachable: str.split never returns []
  | [k] => j.setKey k v
  | k :: rest => do
      let child ← j.subscript k
      let child' ← setPath child rest v
      j.setKey k child'

/-- Python's `str.split(sep)` for the single-character separator `/`,
over the character list: `"a/b"` ↦ `["a", "b"]`, `""` ↦ `[""]`. -/
def splitSlash : List Char → List (List Char)
  | [] => [[]]
  | c :: rest =>
      let r := splitSlash rest
      if c = '/' then [] :: r
      else
        match r with
        | [] => [[c]]  -- unreachable: splitSlash is never []
        | g :: gs => (c :: g) :: gs

/-- The split `key.split("/")` from `PersistentConfig.set` / `PersistentConfig.get`. -/
def pySplit (key : String) : List String :=
  (splitSlash key.toList).map String.mk

/-- The `PersistentConfig.DEFAULT_CONFIG` document. -/
def DEFAULT_CONFIG : Json :=
  .obj [("alarm", .obj [("on", .bool false),
                        ("hour", .num 6),
                        ("min", .num 55)]),
        ("radio", .obj [("playing", .bool false)])]

/-- What reading `radio-config.json` at startup can yield: a parsed JSON
document, an `OSError` (file unreadable / absent), or unparseable content
(`json.JSONDecodeError`). -/
inductive ReadResult where
  | ok (j : Json)
  | osError
  | parseError

/-- The config store's state: the in-memory document `self._config` and
the durable file, described by what a subsequent read of it would yield. -/
structure ConfigState where
  config : Json
  file : ReadResult

namespace PersistentConfig

/-- Method `save()`: `json.dump(self._config, f, indent=4)` overwrites the file;
reading it back parses to the same document. -/
def save (c : Json) : ReadResult := .ok c

/-- Constructor `PersistentConfig.__init__`: try `json.load`; `except OSError` keeps
`None`; a `json.JSONDecodeError` is not caught and propagates; if the
loaded document is `None` substitute `DEFAULT_CONFIG`; finally `save()`. -/
def init (r : ReadResult) : Except PyErr ConfigState :=
  match r with
  | .ok j =>
      -- `if self._config is None: self._config = self.DEFAULT_CONFIG`
      let c := match j with | Json.null => DEFAULT_CONFIG | _ => j
      .ok { config := c, file := save c }
  | .osError => .ok { config := DEFAULT_CONFIG, file := save DEFAULT_CONFIG }
  | .parseError => .error .jsonDecodeError

/-- Method `PersistentConfig.set(key, value)`: split the key on `/`, descend to
the second-to-last mapping, assign, then `save()`. -/
def set (s : ConfigState) (key : String) (v : Json) :
    Except PyErr ConfigState := do
  let c' ← setPath s.config (pySplit key) v
  .ok { config := c', file := save c' }

/-- Method `PersistentConfig.get(key)`: split the key on `/` and descend. -/
def get (s : ConfigState) (key : String) : Except PyErr Json :=
  getPath s.config (pySplit key)

end PersistentConfig

/-- The config state right after a first startup with no readable file:
defaults in memory and on disk. -/
def defaultState : ConfigState :=
  { config := DEFAULT_CONFIG, file := PersistentConfig.save DEFAULT_CONFIG }

/-- A `datetime.time` value: hour, minute, second, microsecond. Values
built by the library are always in range (hour ≤ 23, minute ≤ 59,
second ≤ 59, microsecond ≤ 999999). -/
structure Time where
  hour : Nat
  minute : Nat
  second : Nat
  microsecond : Nat
deriving Repr, DecidableEq

/-- CPython compares `datetime.time` values by comparing their
(hour, minute, second, microsecond) tuples lexicographically. -/
def Time.le (a b : Time) : Bool :=
  if a.hour < b.hour then true else if b.hour < a.hour then false
  else if a.minute < b.minute then true else if b.minute < a.minute then false
  else if a.second < b.second then true else if b.second < a.second then false
  else decide (a.microsecond ≤ b.microsecond)

/-- Whether a `Time` satisfies the field bounds that `datetime` maintains
on every value it hands out (`datetime.datetime.now().time()` included). -/
def Time.valid (t : Time) : Prop :=
  t.hour ≤ 23 ∧ t.minute ≤ 59 ∧ t.second ≤ 59 ∧ t.microsecond ≤ 999999

instance (t : Time) : Decidable t.valid := by
  unfold Time.valid; infer_instance

/-- A time-of-day as a point on the microsecond timeline since midnight. -/
def Time.toMicros (t : Time) : Nat :=
  ((t.hour * 60 + t.minute) * 60 + t.second) * 1000000 + t.microsecond

/-- The `datetime.time(hour, minute)` constructor: raises `ValueError`
unless 0 ≤ hour ≤ 23 and 0 ≤ minute ≤ 59; second and microsecond default
to 0. -/
def datetime_time (hour minute : Int) : Except PyErr Time :=
  if 0 ≤ hour ∧ hour ≤ 23 ∧ 0 ≤ minute ∧ minute ≤ 59 then
    .ok { hour := hour.toNat, minute := minute.toNat,
          second := 0, microsecond := 0 }
  else .error .valueError

/-- A JSON value passed to `datetime.time` where an int is expected:
Python bools are ints (`True == 1`); anything else raises `TypeError`. -/
def Json.asIntArg : Json → Except PyErr Int
  | .num n => .ok n
  | .bool b => .ok (if b then 1 else 0)
  | _ => .error .typeError

/-- Method `AlarmResource.is_within_alarm_time`, with the current wall-clock
time-of-day (`datetime.datetime.now().time()`) passed in explicitly:
`start = time(hour, min)`, `end = time(hour+1, min)` ("Play for 1 hour"),
result `start <= now <= end`. -/
def is_within_alarm_time (cfg : ConfigState) (now : Time) :
    Except PyErr Bool := do
  let start ← do
      let h ← (← PersistentConfig.get cfg "alarm/hour").asIntArg
      let m ← (← PersistentConfig.get cfg "alarm/min").asIntArg
      datetime_time h m
  -- Play for 1 hour
  let endT ← do
      let h ← (← PersistentConfig.get cfg "alarm/hour").asIntArg
      let m ← (← PersistentConfig.get cfg "alarm/min").asIntArg
      datetime_time (h + 1) m
  pure (Time.le start now && Time.le now endT)

/-- Method `AlarmResource.is_weekday`:
`datetime.datetime.today().weekday() < saturday`, with the current
weekday index (Monday = 0) passed in explicitly. -/
def is_weekday (todayWeekday : Nat) : Bool :=
  let saturday := 5
  decide (todayWeekday < saturday)

/-- Abstraction of `self.process` in class `Radio`, combined with the
poll status of the process it refers to: `none` is `self.process is
None`; `live` holds a process whose `poll()` returns None (still
running); `dead` holds a process that has exited. -/
inductive Handle where
  | none
  | live
  | dead
deriving Repr, DecidableEq

/-- Method `Radio.is_playing`:
`self.process is not None and self.process.poll() is None` — a fresh,
non-blocking poll of the current process state, not a cached flag. -/
def is_playing : Handle → Bool
  | .live => true
  | _ => false

/-- Method `Radio.start_playing`: spawn mplayer unless already playing; the new
`subprocess.Popen` handle refers to a freshly launched, running process
(a previously held dead handle is dropped by the overwrite). -/
def start_playing (h : Handle) : Handle :=
  if is_playing h then h else .live

/-- How many player processes a `start_playing` call spawns. -/
def start_spawns (h : Handle) : Nat :=
  if is_playing h then 0 else 1

/-- Method `Radio.stop_playing`: when playing, terminate, wait the 3-second
grace period, kill if still alive, and finally `self.process = None`;
when not playing, do nothing — in particular a handle to an
already-exited process stays retained. -/
def stop_playing (h : Handle) : Handle :=
  if is_playing h then .none else h

/-- The referenced process exits on its own (stream drops, player
crashes): observable only through the next poll. -/
def external_exit : Handle → Handle
  | .live => .dead
  | h => h

/-- The calls `AlarmResource.check_time` can issue on the radio. -/
inductive Call where
  | start
  | stop
deriving Repr, DecidableEq

/-- Method `AlarmResource.check_time`: `should` is this tick's computed
`radio_should_be_playing = self.is_weekday() and
self.is_within_alarm_time()`, `last` is `self.last_should_be_playing`,
`h` the radio's handle. Returns the new `last`, the new handle, and the
call issued on the radio, if any. -/
def check_time (should last : Bool) (h : Handle) :
    Bool × Handle × Option Call :=
  if should && !last then (should, start_playing h, some .start)
  else if !should && last then (should, stop_playing h, some .stop)
  else (last, h, none)

/-- A run of scheduler ticks with the alarm enabled (`run` calls
`check_time` once per tick while `alarm/on` holds): threads `last` and
the handle through and collects the calls issued. -/
def runTicks (last : Bool) (h : Handle) :
    List Bool → Bool × Handle × List Call
  | [] => (last, h, [])
  | s :: rest =>
      let (l', h', c) := check_time s last h
      let (lf, hf, cs) := runTicks l' h' rest
      (lf, hf, c.toList ++ cs)

/-- Number of false→true transitions of `should` across a tick sequence,
`last` being the value before the first tick. -/
def countRises (last : Bool) : List Bool → Nat
  | [] => 0
  | s :: rest => (if s && !last then 1 else 0) + countRises s rest

/-- Number of true→false transitions of `should` across a tick sequence. -/
def countFalls (last : Bool) : List Bool → Nat
  | [] => 0
  | s :: rest => (if !s && last then 1 else 0) + countFalls s rest

/-- Formatting with `%02d`, for the in-range values used in status messages. -/
def fmt02 (n : Int) : String :=
  if 0 ≤ n ∧ n ≤ 9 then "0" ++ toString n else toString n

/-- Handler `AlarmTimeResource.on_get`: `hour = int(hour); min = int(min)` has
already parsed the route segments into ints (hence the `is not None`
guard in the source is always true); range-check, store both values on
success, and return the response status message. -/
def AlarmTimeResource.on_get (cfg : ConfigState) (hour min : Int) :
    Except PyErr (ConfigState × String) :=
  if 23 ≥ hour ∧ hour ≥ 0 ∧ 59 ≥ min ∧ min ≥ 0 then do
    let cfg1 ← PersistentConfig.set cfg "alarm/hour" (.num hour)
    let cfg2 ← PersistentConfig.set cfg1 "alarm/min" (.num min)
    .ok (cfg2, "time set to " ++ fmt02 hour ++ ":" ++ fmt02 min)
  else
    .ok (cfg, "time not valid")

/-- The state the `RadioResource` handler works on: the shared radio
handle and the shared config store. -/
structure ServiceState where
  handle : Handle
  cfg : ConfigState

/-- Handler `RadioResource.on_get`: drives the radio, and on the start/stop
actions unconditionally persists the requested `radio/playing` value
after the branch; returns the response status message. -/
def RadioResource.on_get (s : ServiceState) (action : String) :
    Except PyErr (ServiceState × String) :=
  if action = "start" then
    let (result, h') :=
      if is_playing s.handle then ("already started", s.handle)
      else ("ok let\x27s start this", start_playing s.handle)
    (do
      let cfg' ← PersistentConfig.set s.cfg "radio/playing" (.bool true)
      .ok ({ handle := h', cfg := cfg' }, result))
  else if action = "stop" then
    let (result, h') :=
      if is_playing s.handle then ("ok let\x27s stop this", stop_playing s.handle)
      else ("already stopped", s.handle)
    (do
      let cfg' ← PersistentConfig.set s.cfg "radio/playing" (.bool false)
      .ok ({ handle := h', cfg := cfg' }, result))
  else if action = "status" then
    .ok (s, if is_playing s.handle then "started" else "stopped")
  else
    .ok (s, "not sure what to do with this")

/-- The config state produced by setting the alarm time to
`hour:minute` on the default config (hour and min replaced in place,
then saved). -/
def alarmTimeSet (hour minute : Int) : ConfigState :=
  let c : Json := .obj [("alarm", .obj [("on", .bool false),
                                        ("hour", .num hour),
                                        ("min", .num minute)]),
                        ("radio", .obj [("playing", .bool false)])]
  { config := c, file := PersistentConfig.save c }

/-- The default config document with the wake hour changed to 7. -/
def alarmHour7Doc : Json :=
  .obj [("alarm", .obj [("on", .bool false),
                        ("hour", .num 7),
                        ("min", .num 55)]),
        ("radio", .obj [("playing", .bool false)])]

/-- The default config document with `radio/playing` set to true. -/
def playingTrueDoc : Json :=
  .obj [("alarm", .obj [("on", .bool false),
                        ("hour", .num 6),
                        ("min", .num 55)]),
        ("radio", .obj [("playing", .bool true)])]

/-- A config state whose configured wake hour is 23. -/
def wakeHour23Config : ConfigState :=
  let c : Json := .obj [("alarm", .obj [("on", .bool true),
                                        ("hour", .num 23),
                                        ("min", .num 55)]),
                        ("radio", .obj [("playing", .bool false)])]
  { config := c, file := PersistentConfig.save c }


/-! Helper lemmas: reduction of `Except` binds, lookup after assignment,
and the get-after-set round trip on JSON paths. -/

theorem exceptBind_ok {ε α β : Type} (a : α) (f : α → Except ε β) :
    (Except.ok a >>= f) = f a := rfl

theorem exceptBind_error {ε α β : Type} (e : ε) (f : α → Except ε β) :
    ((Except.error e : Except ε α) >>= f) = Except.error e := rfl

theorem setPath_single (j : Json) (k : String) (v : Json) :
    setPath j [k] v = j.setKey k v := rfl

theorem setPath_cons_cons (j : Json) (k k2 : String) (rest : List String)
    (v : Json) :
    setPath j (k :: k2 :: rest) v =
      (j.subscript k >>= fun c =>
        setPath c (k2 :: rest) v >>= fun c' => j.setKey k c') := rfl

theorem getPath_cons (j : Json) (k : String) (rest : List String) :
    getPath j (k :: rest) = (j.subscript k >>= fun c => getPath c rest) := rfl
theorem lookup_map_assign (k : String) (v : Json) :
    ∀ fs : List (String × Json), fs.any (fun p => p.1 = k) = true →
      (fs.map (fun p => if p.1 = k then (k, v) else p)).lookup k = some v := by
  intro fs
  induction fs with
  | nil => intro h; simp at h
  | cons p rest ih =>
      obtain ⟨pk, pv⟩ := p
      intro h
      by_cases hp : pk = k
      · subst hp
        simp only [List.map_cons]
        rw [if_pos trivial]
        simp [List.lookup]
      · have hrest : rest.any (fun p => p.1 = k) = true := by
          rw [List.any_cons, decide_eq_false hp, Bool.false_or] at h
          exact h
        have hne : (k == pk) = false := beq_eq_false_iff_ne.mpr (Ne.symm hp)
        simp only [List.map_cons]
        rw [show (if ((pk, pv) : String × Json).1 = k then (k, v) else (pk, pv)) =
              (pk, pv) from if_neg hp]
        simp only [List.lookup, hne]
        exact ih hrest

theorem lookup_append_new (k : String) (v : Json) :
    ∀ fs : List (String × Json), fs.any (fun p => p.1 = k) = false →
      (fs ++ [(k, v)]).lookup k = some v := by
  intro fs
  induction fs with
  | nil => intro _; simp [List.lookup]
  | cons p rest ih =>
      obtain ⟨pk, pv⟩ := p
      intro h
      rw [List.any_cons] at h
      obtain ⟨hpk, hrest⟩ := Bool.or_eq_false_iff.mp h
      have hp : pk ≠ k := by simpa using hpk
      have hne : (k == pk) = false := beq_eq_false_iff_ne.mpr (Ne.symm hp)
      simp only [List.cons_append, List.lookup, hne]
      exact ih hrest

theorem lookup_assocSet (fs : List (String × Json)) (k : String) (v : Json) :
    (assocSet fs k v).lookup k = some v := by
  unfold assocSet
  cases hany : fs.any (fun p => p.1 = k) with
  | true =>
      rw [if_pos rfl]
      exact lookup_map_assign k v fs hany
  | false =>
      rw [if_neg (by simp)]
      exact lookup_append_new k v fs hany

theorem getPath_setPath :
    ∀ (parts : List String) (j j' v : Json),
      setPath j parts v = .ok j' → getPath j' parts = .ok v := by
  intro parts
  induction parts with
  | nil => intro j j' v h; simp [setPath] at h
  | cons k rest ih =>
      intro j j' v h
      cases rest with
      | nil =>
          rw [setPath_single] at h
          cases j with
          | obj fields =>
              simp [Json.setKey] at h
              subst h
              rw [getPath_cons]
              have hsub : (Json.obj (assocSet fields k v)).subscript k =
                  Except.ok v := by
                simp [Json.subscript, lookup_assocSet]
              rw [hsub, exceptBind_ok]
              rfl
          | null => simp [Json.setKey] at h
          | bool b => simp [Json.setKey] at h
          | num n => simp [Json.setKey] at h
          | str s => simp [Json.setKey] at h
      | cons k2 rest2 =>
          cases j with
          | obj fs =>
              rw [setPath_cons_cons] at h
              cases hl : fs.lookup k with
              | none =>
                  have hsub : (Json.obj fs).subscript k =
                      Except.error (PyErr.keyError k) := by
                    simp [Json.subscript, hl]
                  rw [hsub, exceptBind_error] at h
                  simp at h
              | some child =>
                  have hsub : (Json.obj fs).subscript k = Except.ok child := by
                    simp [Json.subscript, hl]
                  rw [hsub, exceptBind_ok] at h
                  cases hsp : setPath child (k2 :: rest2) v with
                  | error e => rw [hsp, exceptBind_error] at h; simp at h
                  | ok child' =>
                      rw [hsp, exceptBind_ok] at h
                      simp [Json.setKey] at h
                      subst h
                      rw [getPath_cons]
                      have hsub2 : (Json.obj (assocSet fs k child')).subscript k =
                          Except.ok child' := by
                        simp [Json.subscript, lookup_assocSet]
                      rw [hsub2, exceptBind_ok]
                      exact ih _ _ _ hsp
          | null =>
              rw [setPath_cons_cons] at h
              simp [Json.subscript, exceptBind_error] at h
          | bool b =>
              rw [setPath_cons_cons] at h
              simp [Json.subscript, exceptBind_error] at h
          | num n =>
              rw [setPath_cons_cons] at h
              simp [Json.subscript, exceptBind_error] at h
          | str s =>
              rw [setPath_cons_cons] at h
              simp [Json.subscript, exceptBind_error] at h

theorem setPath_isObj :
    ∀ (parts : List String) (j j' v : Json),
      setPath j parts v = .ok j' → ∃ fs, j' = .obj fs := by
  intro parts j j' v h
  cases parts with
  | nil => simp [setPath] at h
  | cons k rest =>
      cases rest with
      | nil =>
          rw [setPath_single] at h
          cases j with
          | obj fields =>
              simp [Json.setKey] at h
              exact ⟨_, h.symm⟩
          | null => simp [Json.setKey] at h
          | bool b => simp [Json.setKey] at h
          | num n => simp [Json.setKey] at h
          | str s => simp [Json.setKey] at h
      | cons k2 rest2 =>
          cases j with
          | obj fs =>
              rw [setPath_cons_cons] at h
              cases hl : fs.lookup k with
              | none =>
                  have hsub : (Json.obj fs).subscript k =
                      Except.error (PyErr.keyError k) := by
                    simp [Json.subscript, hl]
                  rw [hsub, exceptBind_error] at h
                  simp at h
              | some child =>
                  have hsub : (Json.obj fs).subscript k = Except.ok child := by
                    simp [Json.subscript, hl]
                  rw [hsub, exceptBind_ok] at h
                  cases hsp : setPath child (k2 :: rest2) v with
                  | error e => rw [hsp, exceptBind_error] at h; simp at h
                  | ok child' =>
                      rw [hsp, exceptBind_ok] at h
                      simp [Json.setKey] at h
                      exact ⟨_, h.symm⟩
          | null =>
              rw [setPath_cons_cons] at h
              simp [Json.subscript, exceptBind_error] at h
          | bool b =>
              rw [setPath_cons_cons] at h
              simp [Json.subscript, exceptBind_error] at h
          | num n =>
              rw [setPath_cons_cons] at h
              simp [Json.subscript, exceptBind_error] at h
          | str s =>
              rw [setPath_cons_cons] at h
              simp [Json.subscript, exceptBind_error] at h

theorem get_after_set (cs cs' : ConfigState) (key : String) (v : Json)
    (h : PersistentConfig.set cs key v = .ok cs') :
    PersistentConfig.get cs' key = .ok v := by
  unfold PersistentConfig.set at h
  cases hsp : setPath cs.config (pySplit key) v with
  | error e => rw [hsp, exceptBind_error] at h; simp at h
  | ok c' =>
      rw [hsp, exceptBind_ok] at h
      simp at h
      subst h
      exact getPath_setPath _ _ _ _ hsp


/-! Comparison of valid `datetime.time` values agrees with comparison of
their positions on the microsecond timeline. -/

theorem Time.valid_mk (a b c d : Nat) (h1 : a ≤ 23) (h2 : b ≤ 59)
    (h3 : c ≤ 59) (h4 : d ≤ 999999) : Time.valid ⟨a, b, c, d⟩ :=
  ⟨h1, h2, h3, h4⟩

theorem Time.le_iff (a b : Time) (ha : a.valid) (hb : b.valid) :
    Time.le a b = true ↔ a.toMicros ≤ b.toMicros := by
  obtain ⟨ha1, ha2, ha3, ha4⟩ := ha
  obtain ⟨hb1, hb2, hb3, hb4⟩ := hb
  unfold Time.le Time.toMicros
  split_ifs <;> simp <;> omega

/-! Scheduler tick counting lemmas. -/

theorem runTicks_count_start :
    ∀ (ss : List Bool) (last : Bool) (h : Handle),
      (runTicks last h ss).2.2.count Call.start = countRises last ss := by
  intro ss
  induction ss with
  | nil => intro last h; rfl
  | cons s rest ih =>
      intro last h
      cases s <;> cases last <;>
        simp [runTicks, check_time, countRises, ih, List.count_cons, Nat.add_comm]

theorem runTicks_count_stop :
    ∀ (ss : List Bool) (last : Bool) (h : Handle),
      (runTicks last h ss).2.2.count Call.stop = countFalls last ss := by
  intro ss
  induction ss with
  | nil => intro last h; rfl
  | cons s rest ih =>
      intro last h
      cases s <;> cases last <;>
        simp [runTicks, check_time, countFalls, ih, List.count_cons, Nat.add_comm]

/-! The claims. -/

/-- C1: for every configured wake time hour:min with hour in [0, 22] (and
minute in [0, 59]), `is_within_alarm_time` returns true iff the current
wall-clock time-of-day lies in the closed interval from hour:min to
(hour+1):min; concretely, for the default wake time 06:55 the check is
false at 06:54:59, true at 06:55:00, true at 07:55:00 and false at
07:55:01. -/
theorem C1_within_alarm_window (cs : ConfigState) (h m : Int) (now : Time)
    (hh : PersistentConfig.get cs "alarm/hour" = .ok (.num h))
    (hm : PersistentConfig.get cs "alarm/min" = .ok (.num m))
    (h0 : 0 ≤ h) (h22 : h ≤ 22) (m0 : 0 ≤ m) (m59 : m ≤ 59)
    (hnow : now.valid) :
    (is_within_alarm_time cs now = .ok true ↔
      (Time.toMicros ⟨h.toNat, m.toNat, 0, 0⟩ ≤ now.toMicros ∧
       now.toMicros ≤ Time.toMicros ⟨h.toNat + 1, m.toNat, 0, 0⟩)) ∧
    is_within_alarm_time defaultState ⟨6, 54, 59, 0⟩ = .ok false ∧
    is_within_alarm_time defaultState ⟨6, 55, 0, 0⟩ = .ok true ∧
    is_within_alarm_time defaultState ⟨7, 55, 0, 0⟩ = .ok true ∧
    is_within_alarm_time defaultState ⟨7, 55, 1, 0⟩ = .ok false := by
  refine ⟨?_, rfl, rfl, rfl, rfl⟩
  have ht1 : (h + 1).toNat = h.toNat + 1 := by omega
  have hst : datetime_time h m = .ok ⟨h.toNat, m.toNat, 0, 0⟩ := by
    unfold datetime_time
    rw [if_pos ⟨h0, by omega, m0, m59⟩]
  have hen : datetime_time (h + 1) m = .ok ⟨h.toNat + 1, m.toNat, 0, 0⟩ := by
    unfold datetime_time
    rw [if_pos ⟨by omega, by omega, m0, m59⟩, ht1]
  unfold is_within_alarm_time
  rw [hh, hm]
  simp only [exceptBind_ok, Json.asIntArg, hst, hen]
  simp only [pure, Except.pure, Except.ok.injEq, Bool.and_eq_true]
  rw [Time.le_iff ⟨h.toNat, m.toNat, 0, 0⟩ now
        (Time.valid_mk _ _ _ _ (by omega) (by omega) (by omega) (by omega))
        hnow,
      Time.le_iff now ⟨h.toNat + 1, m.toNat, 0, 0⟩ hnow
        (Time.valid_mk _ _ _ _ (by omega) (by omega) (by omega) (by omega))]

/-- C1 witness: the general window characterization instantiated at the
default config (wake time 06:55) and clock time 07:00:00. -/
theorem C1_within_alarm_window_witness :
    (is_within_alarm_time defaultState ⟨7, 0, 0, 0⟩ = .ok true ↔
      (Time.toMicros ⟨6, 55, 0, 0⟩ ≤ Time.toMicros ⟨7, 0, 0, 0⟩ ∧
       Time.toMicros ⟨7, 0, 0, 0⟩ ≤ Time.toMicros ⟨6 + 1, 55, 0, 0⟩)) ∧
    is_within_alarm_time defaultState ⟨6, 54, 59, 0⟩ = .ok false ∧
    is_within_alarm_time defaultState ⟨6, 55, 0, 0⟩ = .ok true ∧
    is_within_alarm_time defaultState ⟨7, 55, 0, 0⟩ = .ok true ∧
    is_within_alarm_time defaultState ⟨7, 55, 1, 0⟩ = .ok false :=
  C1_within_alarm_window defaultState 6 55 ⟨7, 0, 0, 0⟩ rfl rfl
    (by decide) (by decide) (by decide) (by decide) (by decide)

/-- C2: over any sequence of scheduler ticks with the alarm enabled,
`check_time` issues the radio start call exactly once per false→true
transition of `should_play` and the stop call exactly once per
true→false transition (never once per tick), and whenever a call is
issued `last_should_be_playing` is updated to the new value. -/
theorem C2_edge_triggering (last : Bool) (h : Handle) (ss : List Bool) :
    ((runTicks last h ss).2.2.count Call.start = countRises last ss) ∧
    ((runTicks last h ss).2.2.count Call.stop = countFalls last ss) ∧
    (∀ (s l : Bool) (hd : Handle) (c : Call),
      (check_time s l hd).2.2 = some c → (check_time s l hd).1 = s) := by
  refine ⟨runTicks_count_start ss last h, runTicks_count_stop ss last h, ?_⟩
  intro s l hd c hc
  cases s <;> cases l <;> simp [check_time] at hc ⊢

/-- C2 witness: a run crossing the window boundary twice (rise then
fall) issues one start and one stop, and the rising tick updates
`last_should_be_playing` to true. -/
theorem C2_edge_triggering_witness :
    ((runTicks false Handle.none [true, true, false]).2.2.count Call.start =
      countRises false [true, true, false]) ∧
    ((runTicks false Handle.none [true, true, false]).2.2.count Call.stop =
      countFalls false [true, true, false]) ∧
    (check_time true false Handle.none).1 = true :=
  ⟨(C2_edge_triggering false Handle.none [true, true, false]).1,
   (C2_edge_triggering false Handle.none [true, true, false]).2.1,
   (C2_edge_triggering false Handle.none [true, true, false]).2.2 true false
     Handle.none Call.start rfl⟩

/-- C3 counterexample: a config file with unparseable content makes
startup raise `json.JSONDecodeError` instead of substituting the
default document — only `OSError` is caught. -/
theorem C3_parse_failure_cex :
    PersistentConfig.init ReadResult.parseError =
      Except.error PyErr.jsonDecodeError := rfl

/-- C3 (amended): on an unreadable file (`OSError`) or a file parsing to
`null`, startup substitutes the hardcoded default document; unparseable
content is not caught and propagates as a parse error; any other parsed
document is kept as-is. -/
theorem C3_load_defaults_amended :
    PersistentConfig.init ReadResult.osError = Except.ok defaultState ∧
    PersistentConfig.init (ReadResult.ok Json.null) = Except.ok defaultState ∧
    PersistentConfig.init ReadResult.parseError =
      Except.error PyErr.jsonDecodeError ∧
    (∀ j : Json, j ≠ Json.null →
      PersistentConfig.init (ReadResult.ok j) =
        Except.ok ⟨j, PersistentConfig.save j⟩) := by
  refine ⟨rfl, rfl, rfl, ?_⟩
  intro j hj
  cases j with
  | null => exact absurd rfl hj
  | bool b => rfl
  | num n => rfl
  | str s => rfl
  | obj fs => rfl

/-- C3 witness: a non-null parsed document is kept as-is. -/
theorem C3_load_defaults_amended_witness :
    PersistentConfig.init (ReadResult.ok (Json.bool true)) =
      Except.ok ⟨Json.bool true, PersistentConfig.save (Json.bool true)⟩ :=
  C3_load_defaults_amended.2.2.2 (Json.bool true)
    (fun hcontra => Json.noConfusion hcontra)

/-- C4: with a configured wake hour of 23 (and any valid minute), the end
time `datetime.time(24, min)` is invalid, so `is_within_alarm_time`
raises `ValueError` instead of returning a boolean. -/
theorem C4_wake_hour23_overflow (cs : ConfigState) (m : Int) (now : Time)
    (hh : PersistentConfig.get cs "alarm/hour" = .ok (.num 23))
    (hm : PersistentConfig.get cs "alarm/min" = .ok (.num m))
    (m0 : 0 ≤ m) (m59 : m ≤ 59) :
    is_within_alarm_time cs now = .error PyErr.valueError := by
  have hst : datetime_time 23 m = .ok ⟨(23 : Int).toNat, m.toNat, 0, 0⟩ := by
    unfold datetime_time
    rw [if_pos ⟨by omega, by omega, m0, m59⟩]
  have hen : datetime_time (23 + 1) m = .error PyErr.valueError := by
    unfold datetime_time
    rw [if_neg (by omega)]
  unfold is_within_alarm_time
  rw [hh, hm]
  simp only [exceptBind_ok, Json.asIntArg, hst, hen, exceptBind_error]

/-- C4 witness: the error branch evaluated at a concrete hour-23 config
and midnight. -/
theorem C4_wake_hour23_overflow_witness :
    is_within_alarm_time wakeHour23Config ⟨0, 0, 0, 0⟩ =
      .error PyErr.valueError :=
  C4_wake_hour23_overflow wakeHour23Config 55 ⟨0, 0, 0, 0⟩ rfl rfl
    (by decide) (by decide)

/-- C5 counterexample: after the spawned player process exits on its own,
a liveness check observes it exited (`is_playing` is false), yet
`stop_playing` retains the dead handle — it is not released. -/
theorem C5_dead_handle_retained_cex :
    external_exit (start_playing Handle.none) = Handle.dead ∧
    is_playing Handle.dead = false ∧
    stop_playing Handle.dead = Handle.dead ∧
    Handle.dead ≠ Handle.none := by
  decide

/-- C5 (amended): a stop while the process is still alive releases the
handle, and `is_playing` always reflects a fresh poll (false once the
process has exited, never a cached flag); but an operation that merely
observes the process already exited retains the dead handle —
`stop_playing` no-ops on it, and it is only replaced when a later
`start_playing` spawns anew. -/
theorem C5_handle_release_amended :
    (∀ h : Handle, is_playing h = true → stop_playing h = Handle.none) ∧
    is_playing (external_exit Handle.live) = false ∧
    stop_playing Handle.dead = Handle.dead ∧
    start_playing Handle.dead = Handle.live := by
  refine ⟨?_, rfl, rfl, rfl⟩
  intro h hp
  cases h <;> simp_all [is_playing, stop_playing]

/-- C5 witness: stopping a live player releases the handle; a fresh poll
after an external exit reports not playing. -/
theorem C5_handle_release_amended_witness :
    stop_playing Handle.live = Handle.none ∧
    is_playing (external_exit Handle.live) = false :=
  ⟨C5_handle_release_amended.1 Handle.live rfl,
   C5_handle_release_amended.2.1⟩

/-- C6: from every player state, two consecutive starts leave exactly one
live player process (the second call spawns nothing and is a no-op), and
two consecutive stops leave no live process, the second stop being a
no-op; all four operations are total, so no error is raised. -/
theorem C6_start_stop_idempotent (h : Handle) :
    start_playing (start_playing h) = Handle.live ∧
    start_spawns (start_playing h) = 0 ∧
    start_playing (start_playing h) = start_playing h ∧
    is_playing (stop_playing (stop_playing h)) = false ∧
    stop_playing (stop_playing h) = stop_playing h := by
  cases h <;> exact ⟨rfl, rfl, rfl, rfl, rfl⟩

/-- C7: the alarm-time handler stores in-range (hour, min) pairs in the
config and confirms, rejects out-of-range pairs with the validation
message; concretely (24, 0) is rejected and (23, 59) is accepted. -/
theorem C7_time_validation :
    (∀ (cs : ConfigState) (hour minute : Int),
      ¬(23 ≥ hour ∧ hour ≥ 0 ∧ 59 ≥ minute ∧ minute ≥ 0) →
      AlarmTimeResource.on_get cs hour minute = .ok (cs, "time not valid")) ∧
    (∀ hour minute : Int,
      (23 ≥ hour ∧ hour ≥ 0 ∧ 59 ≥ minute ∧ minute ≥ 0) →
      AlarmTimeResource.on_get defaultState hour minute =
        .ok (alarmTimeSet hour minute,
             "time set to " ++ fmt02 hour ++ ":" ++ fmt02 minute) ∧
      PersistentConfig.get (alarmTimeSet hour minute) "alarm/hour" =
        .ok (.num hour) ∧
      PersistentConfig.get (alarmTimeSet hour minute) "alarm/min" =
        .ok (.num minute)) ∧
    AlarmTimeResource.on_get defaultState 24 0 =
      .ok (defaultState, "time not valid") ∧
    AlarmTimeResource.on_get defaultState 23 59 =
      .ok (alarmTimeSet 23 59, "time set to 23:59") := by
  refine ⟨?_, ?_, rfl, rfl⟩
  · intro cs hour minute hout
    unfold AlarmTimeResource.on_get
    rw [if_neg hout]
  · intro hour minute hin
    refine ⟨?_, rfl, rfl⟩
    unfold AlarmTimeResource.on_get
    rw [if_pos hin]
    rfl

/-- C7 witness: (-1, 0) is rejected, (7, 30) is stored and confirmed. -/
theorem C7_time_validation_witness :
    AlarmTimeResource.on_get defaultState (-1) 0 =
      .ok (defaultState, "time not valid") ∧
    AlarmTimeResource.on_get defaultState 7 30 =
      .ok (alarmTimeSet 7 30, "time set to 07:30") :=
  ⟨C7_time_validation.1 defaultState (-1) 0 (by decide),
   (C7_time_validation.2.1 7 30 (by decide)).1⟩

/-- C8: a value stored by `set` at a valid path is returned by `get` at
that path after the saved file is reloaded by a fresh startup — the
config round-trips through durable storage. -/
theorem C8_config_roundtrip (cs cs' : ConfigState) (key : String) (v : Json)
    (hset : PersistentConfig.set cs key v = .ok cs') :
    ∃ cs'' : ConfigState, PersistentConfig.init cs'.file = .ok cs'' ∧
      PersistentConfig.get cs'' key = .ok v := by
  unfold PersistentConfig.set at hset
  cases hsp : setPath cs.config (pySplit key) v with
  | error e => rw [hsp, exceptBind_error] at hset; simp at hset
  | ok c' =>
      rw [hsp, exceptBind_ok] at hset
      simp at hset
      subst hset
      obtain ⟨fs, rfl⟩ := setPath_isObj _ _ _ _ hsp
      refine ⟨⟨Json.obj fs, PersistentConfig.save (Json.obj fs)⟩, rfl, ?_⟩
      exact getPath_setPath _ _ _ _ hsp

/-- C8 witness: `set("alarm/hour", 7)` on the default config, then a
reload of the saved file, yields `get("alarm/hour") == 7`. -/
theorem C8_config_roundtrip_witness :
    ∃ cs'' : ConfigState,
      PersistentConfig.init
        (ConfigState.mk alarmHour7Doc
          (PersistentConfig.save alarmHour7Doc)).file = .ok cs'' ∧
      PersistentConfig.get cs'' "alarm/hour" = .ok (.num 7) :=
  C8_config_roundtrip defaultState
    ⟨alarmHour7Doc, PersistentConfig.save alarmHour7Doc⟩
    "alarm/hour" (.num 7) rfl

/-- C9: the radio handler persists the requested `radio/playing` value
unconditionally on every start and stop action — true after "start" even
when already playing (response "already started"), false after "stop"
even when already stopped (response "already stopped"). -/
theorem C9_radio_flag_persisted :
    (∀ (s s' : ServiceState) (r : String),
      RadioResource.on_get s "start" = .ok (s', r) →
      PersistentConfig.get s'.cfg "radio/playing" = .ok (.bool true) ∧
      (is_playing s.handle = true → r = "already started")) ∧
    (∀ (s s' : ServiceState) (r : String),
      RadioResource.on_get s "stop" = .ok (s', r) →
      PersistentConfig.get s'.cfg "radio/playing" = .ok (.bool false) ∧
      (is_playing s.handle = false → r = "already stopped")) := by
  constructor
  · intro s s' r hreq
    unfold RadioResource.on_get at hreq
    rw [if_pos rfl] at hreq
    by_cases hp : is_playing s.handle
    · rw [if_pos hp] at hreq
      simp only [] at hreq
      cases hset : PersistentConfig.set s.cfg "radio/playing" (.bool true) with
      | error e => rw [hset, exceptBind_error] at hreq; simp at hreq
      | ok cfg' =>
          rw [hset, exceptBind_ok] at hreq
          simp at hreq
          obtain ⟨hs', hr⟩ := hreq
          subst hs'
          subst hr
          exact ⟨get_after_set _ _ _ _ hset, fun _ => rfl⟩
    · rw [if_neg hp] at hreq
      simp only [] at hreq
      cases hset : PersistentConfig.set s.cfg "radio/playing" (.bool true) with
      | error e => rw [hset, exceptBind_error] at hreq; simp at hreq
      | ok cfg' =>
          rw [hset, exceptBind_ok] at hreq
          simp at hreq
          obtain ⟨hs', hr⟩ := hreq
          subst hs'
          subst hr
          refine ⟨get_after_set _ _ _ _ hset, fun hpl => absurd hpl hp⟩
  · intro s s' r hreq
    unfold RadioResource.on_get at hreq
    rw [if_neg (by simp), if_pos rfl] at hreq
    by_cases hp : is_playing s.handle
    · rw [if_pos hp] at hreq
      simp only [] at hreq
      cases hset : PersistentConfig.set s.cfg "radio/playing" (.bool false) with
      | error e => rw [hset, exceptBind_error] at hreq; simp at hreq
      | ok cfg' =>
          rw [hset, exceptBind_ok] at hreq
          simp at hreq
          obtain ⟨hs', hr⟩ := hreq
          subst hs'
          subst hr
          refine ⟨get_after_set _ _ _ _ hset,
                  fun hnp => absurd hp (by simp [hnp])⟩
    · rw [if_neg hp] at hreq
      simp only [] at hreq
      cases hset : PersistentConfig.set s.cfg "radio/playing" (.bool false) with
      | error e => rw [hset, exceptBind_error] at hreq; simp at hreq
      | ok cfg' =>
          rw [hset, exceptBind_ok] at hreq
          simp at hreq
          obtain ⟨hs', hr⟩ := hreq
          subst hs'
          subst hr
          exact ⟨get_after_set _ _ _ _ hset, fun _ => rfl⟩

/-- C9 witness: a start request while already playing answers "already
started" and still persists `radio/playing = true`. -/
theorem C9_radio_flag_persisted_witness :
    PersistentConfig.get
      (ConfigState.mk playingTrueDoc (PersistentConfig.save playingTrueDoc))
      "radio/playing" = .ok (.bool true) ∧
    "already started" = "already started" :=
  ⟨(C9_radio_flag_persisted.1 ⟨Handle.live, defaultState⟩
      ⟨Handle.live, ⟨playingTrueDoc, PersistentConfig.save playingTrueDoc⟩⟩
      "already started" rfl).1,
   (C9_radio_flag_persisted.1 ⟨Handle.live, defaultState⟩
      ⟨Handle.live, ⟨playingTrueDoc, PersistentConfig.save playingTrueDoc⟩⟩
      "already started" rfl).2 rfl⟩

/-- C10: when the alarm-time handler rejects an out-of-range (hour, min),
the config state it returns is exactly the one it was given — no partial
write of hour or min happens on the rejection path. -/
theorem C10_reject_leaves_config_unchanged (cs : ConfigState)
    (hour minute : Int)
    (hout : ¬(23 ≥ hour ∧ hour ≥ 0 ∧ 59 ≥ minute ∧ minute ≥ 0)) :
    AlarmTimeResource.on_get cs hour minute = .ok (cs, "time not valid") := by
  unfold AlarmTimeResource.on_get
  rw [if_neg hout]

/-- C10 witness: the rejection of (25, 30) leaves the default config
untouched. -/
theorem C10_reject_leaves_config_unchanged_witness :
    AlarmTimeResource.on_get defaultState 25 30 =
      .ok (defaultState, "time not valid") :=
  C10_reject_leaves_config_unchanged defaultState 25 30 (by decide)

end RpiRadioAlarm
